import Mathlib

/-!
# Verification of the homework-status bot poll loop

Shallow embedding of `src/homework.py` and `src/exceptions.py`:
the response validator (`check_response`), the status extractor
(`parse_status`), the Telegram send wrapper (`send_message`) and one
iteration of the polling loop in `main` (`iterate`).

JSON-like Python values are modelled by `Val`; Python exceptions by `Exc`.
The network call `get_api_answer` performs IO, so its observable outcome
(a decoded JSON body, the HTTPstatusNot200 exception, or any other
exception from `requests.get`) is the per-iteration input `FetchResult`.
-/

namespace HomeworkBot

/-- A Python/JSON value as it appears in API responses. -/
inductive Val where
  | vDict : List (String × Val) → Val
  | vList : List Val → Val
  | vStr : String → Val
  | vInt : Int → Val
deriving Repr

/-- Exceptions that can be raised by the embedded code
(the `My.*` classes from `src/exceptions.py`, plus the builtin
Python exceptions the code can raise). -/
inductive Exc where
  | HTTPstatusNot200 : String → Exc
  | NoKeysException : String → Exc
  | HomeworksIsNotList : String → Exc
  | NoTokenException : String → Exc
  | typeError : String → Exc
  | keyError : String → Exc
  | nameError : String → Exc
  | otherExc : String → Exc
deriving Repr, DecidableEq

/-- Association-list lookup, modelling Python dict access `d[k]` /
`k in d.keys()` (first binding wins, as dict keys are unique). -/
def dictGet (kvs : List (String × Val)) (k : String) : Option Val :=
  match kvs with
  | [] => none
  | (k', v) :: rest => if k' = k then some v else dictGet rest k

/-- Lookup of a key on an arbitrary value: subscripting a non-dict is not
modelled here (callers match on `Val.vDict` first, as the source does). -/
def respGet (response : Val) (k : String) : Option Val :=
  match response with
  | .vDict kvs => dictGet kvs k
  | _ => none

/-- Python `str()` of a value, as interpolated into f-strings. -/
def pyStr : Val → String
  | .vStr s => s
  | .vInt n => toString n
  | .vList _ => "<list>"
  | .vDict _ => "<dict>"

/-- Python `str()` of an exception as interpolated by `f"...{error}..."`:
`KeyError` renders its missing key in quotes, others render their message. -/
def excStr : Exc → String
  | .HTTPstatusNot200 m => m
  | .NoKeysException m => m
  | .HomeworksIsNotList m => m
  | .NoTokenException m => m
  | .typeError m => m
  | .keyError k => "\x27" ++ k ++ "\x27"
  | .nameError m => m
  | .otherExc m => m

/-- `RETRY_TIME` from `src/homework.py`. -/
def RETRY_TIME : Nat := 600

/-- `ENDPOINT` from `src/homework.py`. -/
def ENDPOINT : String := "https://practicum.yandex.ru/api/user_api/homework_statuses/"

/-- `HOMEWORK_STATUSES` from `src/homework.py`: the fixed verdict mapping. -/
def HOMEWORK_STATUSES : List (String × String) :=
  [("approved", "Работа проверена: ревьюеру всё понравилось. Ура!"),
   ("reviewing", "Работа взята на проверку ревьюером."),
   ("rejected", "Работа проверена: у ревьюера есть замечания.")]

/-- `HOMEWORK_STATUSES[status]`: succeeds only on one of the three string
keys; any other value raises `KeyError` in the source. -/
def statusVerdict (v : Val) : Option String :=
  match v with
  | .vStr s => HOMEWORK_STATUSES.lookup s
  | _ => none

/-- `check_response` (src/homework.py lines 74-86). `dict.keys(response)`
raises `TypeError` when `response` is not a dict; otherwise both the
`homeworks` and `current_date` keys are required, and the value under
`homeworks` must be a Python list. -/
def check_response (response : Val) : Except Exc (List Val) :=
  match response with
  | .vDict kvs =>
    match dictGet kvs "homeworks", dictGet kvs "current_date" with
    | some homeworks, some _ =>
      match homeworks with
      | .vList hs => .ok hs
      | _ => .error (.HomeworksIsNotList "Возвращается не список домашних работ.")
    | _, _ => .error (.NoKeysException "Отсутствуют ожидаемые ключи в ответе API.")
  | _ => .error (.typeError "descriptor keys requires a dict object")

/-- `parse_status` (src/homework.py lines 89-96): subscripts
`homework_name`, then `status`, then the verdict mapping; each missing
lookup raises `KeyError`, a non-dict record raises `TypeError`. -/
def parse_status (homework : Val) : Except Exc String :=
  match homework with
  | .vDict kvs =>
    match dictGet kvs "homework_name" with
    | none => .error (.keyError "homework_name")
    | some nameV =>
      match dictGet kvs "status" with
      | none => .error (.keyError "status")
      | some statusV =>
        match statusVerdict statusV with
        | none => .error (.keyError (pyStr statusV))
        | some verdict =>
          .ok ("Изменился статус проверки работы \"" ++ pyStr nameV ++ "\". " ++ verdict)
  | _ => .error (.typeError "homework is not subscriptable")

/-- `check_tokens` (src/homework.py lines 99-110). -/
def check_tokens (practicumToken telegramToken telegramChatId : Option String) : Bool :=
  practicumToken.isSome && telegramToken.isSome && telegramChatId.isSome

/-- Severity levels used by the module logger. -/
inductive LogLevel where
  | debug | info | error | critical
deriving Repr, DecidableEq

/-- One record emitted through the module logger. -/
structure LogEntry where
  level : LogLevel
  msg : String
deriving Repr, DecidableEq

/-- Result object returned by `telegram.Bot.send_message`. -/
structure SentMessage where
  text : String
deriving Repr, DecidableEq

/-- The Telegram collaborator: sending a message either returns the sent
message or raises an exception. -/
abbrev Bot := String → Except Exc SentMessage

/-- `send_message` (src/homework.py lines 40-57): the `Except` result type
records whether an exception escapes to the caller. Any exception from
`bot.send_message` is caught and logged; the success branch only logs. -/
def send_message (bot : Bot) (message : String) : Except Exc (List LogEntry) :=
  match bot message with
  | .error error =>
    .ok [LogEntry.mk .error ("Сбой при отправке сообщения в Telegram: \"" ++ excStr error ++ "\"")]
  | .ok sent_message =>
    if sent_message.text = message then
      .ok [LogEntry.mk .info ("Бот отправил сообщение: \"" ++ message ++ "\"")]
    else
      .ok [LogEntry.mk .info ("Бот отправил другое сообщение: \"" ++ sent_message.text ++
        "\"" ++ "А должно было быть отправлено сообщение: \"" ++ message ++ "\"")]

/-- The log records produced by a `send_message` call. -/
def sendLogs (bot : Bot) (message : String) : List LogEntry :=
  match send_message bot message with
  | .ok logs => logs
  | .error _ => []

/-- The observable outcome of `get_api_answer` at line 142: the decoded
JSON body, or `My.HTTPstatusNot200` (line 69), or any other exception
raised by `requests.get`. -/
inductive FetchResult where
  | ok : Val → FetchResult
  | httpError : String → FetchResult
  | otherError : String → FetchResult
deriving Repr

/-- The mutable locals of `main` that persist across loop iterations
(lines 132-138), plus the loop-body local `status_verdict`, which Python
keeps across iterations as well and which is unbound (`none`) until its
first assignment at line 186 or 189. -/
structure LoopState where
  current_timestamp : Val
  status_verdict_previous : String
  HTTP_error_previous : String
  endpoint_message_previous : String
  error_not_list_previous : String
  error_no_keys_previous : String
  error_status_previous : String
  status_verdict : Option String
deriving Repr

/-- Observable effects of one pass through the `while True` body:
the successor state, the messages handed to `send_message` in order,
the log records, how many times `time.sleep(RETRY_TIME)` ran, and the
exception, if any, that propagates out of the loop (terminating `main`). -/
structure IterResult where
  state : LoopState
  sends : List String
  logs : List LogEntry
  sleeps : Nat
  crash : Option Exc
deriving Repr

/-- f-string at line 145. -/
def httpErrorFmt (e : String) : String := "Сбой в програме: ответ API: \"" ++ e ++ "\"."

/-- f-string at lines 153-156. -/
def endpointFmt (e : String) : String :=
  "Сбой в работе программы: Эндпоинт: " ++ ENDPOINT ++ " недоступен. Ответ API: " ++ e

/-- f-string at lines 168 and 176 (both handlers format identically). -/
def progFailFmt (m : String) : String := "Сбой в программе: \"" ++ m ++ "\""

/-- f-string at lines 192-196. -/
def statusErrFmt (e : String) : String :=
  "Сбой в работе программы: Статус домашней работы незадокументирован. Ответ API: " ++ e

/-- Literal at line 186. -/
def noStatusSentinel : String := "Статус отсутствует."

/-- `except My.HTTPstatusNot200` handler, lines 144-150. The sleep at
line 150 is outside the `if`, so it always runs. -/
def handleHTTPError (bot : Bot) (s : LoopState) (e : String) : IterResult :=
  let HTTP_error := httpErrorFmt e
  if HTTP_error ≠ s.HTTP_error_previous then
    { state := { s with HTTP_error_previous := HTTP_error }, sends := [HTTP_error],
      logs := LogEntry.mk .error HTTP_error :: sendLogs bot HTTP_error,
      sleeps := 1, crash := none }
  else
    { state := s, sends := [], logs := [LogEntry.mk .error HTTP_error],
      sleeps := 1, crash := none }

/-- `except Exception` handler, lines 152-161. The sleep at line 161 is
outside the `if`, so it always runs. -/
def handleOtherError (bot : Bot) (s : LoopState) (e : String) : IterResult :=
  let endpoint_message := endpointFmt e
  if endpoint_message ≠ s.endpoint_message_previous then
    { state := { s with endpoint_message_previous := endpoint_message },
      sends := [endpoint_message],
      logs := LogEntry.mk .error endpoint_message :: sendLogs bot endpoint_message,
      sleeps := 1, crash := none }
  else
    { state := s, sends := [], logs := [LogEntry.mk .error endpoint_message],
      sleeps := 1, crash := none }

/-- `except My.HomeworksIsNotList` handler, lines 167-173. The sleep at
line 173 is INSIDE the `if`, so a repeated identical error skips it. -/
def handleNotList (bot : Bot) (s : LoopState) (msg : String) : IterResult :=
  let error_not_list := progFailFmt msg
  if error_not_list ≠ s.error_not_list_previous then
    { state := { s with error_not_list_previous := error_not_list },
      sends := [error_not_list],
      logs := LogEntry.mk .error error_not_list :: sendLogs bot error_not_list,
      sleeps := 1, crash := none }
  else
    { state := s, sends := [], logs := [LogEntry.mk .error error_not_list],
      sleeps := 0, crash := none }

/-- `except My.NoKeysException` handler, lines 175-182. The sleep at
line 182 is INSIDE the `if`, so a repeated identical error skips it. -/
def handleNoKeys (bot : Bot) (s : LoopState) (msg : String) : IterResult :=
  let error_no_keys := progFailFmt msg
  if error_no_keys ≠ s.error_no_keys_previous then
    { state := { s with error_no_keys_previous := error_no_keys },
      sends := [error_no_keys],
      logs := LogEntry.mk .error error_no_keys :: sendLogs bot error_no_keys,
      sleeps := 1, crash := none }
  else
    { state := s, sends := [], logs := [LogEntry.mk .error error_no_keys],
      sleeps := 0, crash := none }

/-- Lines 210-211: the unconditional sleep, then
`current_timestamp = response['current_date']` on every pass through the
inner `else` branch, changed or not. The `none` case models the `KeyError`
a missing `current_date` would raise (unreachable after a successful
`check_response`, which requires the key). -/
def sleepAndAdvance (s2 : LoopState) (sends : List String) (logs : List LogEntry)
    (sleeps : Nat) (response : Val) : IterResult :=
  match respGet response "current_date" with
  | some v =>
    { state := { s2 with current_timestamp := v }, sends := sends, logs := logs,
      sleeps := sleeps + 1, crash := none }
  | none =>
    { state := s2, sends := sends, logs := logs, sleeps := sleeps + 1,
      crash := some (.keyError "current_date") }

/-- Lines 204-208: compare the bound `status_verdict` `sv` with
`status_verdict_previous`; notify and update on change, log a debug line
otherwise; then fall through to lines 210-211. `sends1`/`logs1`/`sleeps1`
carry the effects already produced by lines 185-202. -/
def afterCompare (bot : Bot) (s1 : LoopState) (response : Val) (sv : String)
    (sends1 : List String) (logs1 : List LogEntry) (sleeps1 : Nat) : IterResult :=
  if sv ≠ s1.status_verdict_previous then
    sleepAndAdvance { s1 with status_verdict_previous := sv, status_verdict := some sv }
      (sends1 ++ [sv]) (logs1 ++ sendLogs bot sv) sleeps1 response
  else
    sleepAndAdvance { s1 with status_verdict := some sv } sends1
      (logs1 ++ [LogEntry.mk .debug "В ответе отсутствуют новые статусы."]) sleeps1 response

/-- Line 204 after a failed `parse_status`: the handler at lines 191-202
left the local `status_verdict` untouched, so reading it either raises
`NameError` (never yet bound — uncaught, the loop crashes after the
handler's sleep at line 202 but before the one at line 210) or yields the
stale value from an earlier iteration. -/
def handleStale (bot : Bot) (s1 : LoopState) (response : Val)
    (sends1 : List String) (logs1 : List LogEntry) : IterResult :=
  match s1.status_verdict with
  | none =>
    { state := s1, sends := sends1, logs := logs1, sleeps := 1,
      crash := some (.nameError "name status_verdict is not defined") }
  | some sv => afterCompare bot s1 response sv sends1 logs1 1

/-- Inner `else` branch, lines 184-211. Lines 185-189 bind the local
`status_verdict` from the sentinel or `parse_status`; a `parse_status`
failure runs the handler at lines 191-202 (notify-if-new, then an
unconditional sleep at line 202) and leaves `status_verdict` untouched. -/
def handleSuccess (bot : Bot) (s : LoopState) (response : Val)
    (homeworks : List Val) : IterResult :=
  match homeworks with
  | [] => afterCompare bot s response noStatusSentinel [] [] 0
  | hw :: _ =>
    match parse_status hw with
    | .ok status_verdict => afterCompare bot s response status_verdict [] [] 0
    | .error err =>
      let error_status := statusErrFmt (excStr err)
      if error_status ≠ s.error_status_previous then
        handleStale bot { s with error_status_previous := error_status } response
          [error_status] (LogEntry.mk .error error_status :: sendLogs bot error_status)
      else
        handleStale bot s response [] [LogEntry.mk .error error_status]

/-- One pass through the `while True` body of `main` (lines 140-211).
Exceptions raised inside the `else` clauses are not covered by the
corresponding `try`, so a `check_response` error other than the two
handled classes — and any error past line 184 other than the handled
`parse_status` failure — propagates out of the loop. -/
def iterate (bot : Bot) (s : LoopState) (fetch : FetchResult) : IterResult :=
  match fetch with
  | .httpError e => handleHTTPError bot s e
  | .otherError e => handleOtherError bot s e
  | .ok response =>
    match check_response response with
    | .error (.HomeworksIsNotList msg) => handleNotList bot s msg
    | .error (.NoKeysException msg) => handleNoKeys bot s msg
    | .error e => { state := s, sends := [], logs := [], sleeps := 0, crash := some e }
    | .ok homeworks => handleSuccess bot s response homeworks

/-- The state of `main` just before the loop (lines 131-138):
`current_timestamp = int(time.time())` for some wall-clock `t`, all six
previous-text variables empty, `status_verdict` not yet bound. -/
def initState (t : Int) : LoopState :=
  { current_timestamp := .vInt t, status_verdict_previous := "",
    HTTP_error_previous := "", endpoint_message_previous := "",
    error_not_list_previous := "", error_no_keys_previous := "",
    error_status_previous := "", status_verdict := none }

/-- A bot whose delivery always succeeds and echoes the message. -/
def okBot : Bot := fun m => .ok ⟨m⟩

/-- A bot whose delivery always raises. -/
def failBot : Bot := fun _ => .error (.otherExc "Bad Request")

/-- The fixed text the `NoKeysException` handler formats at line 176. -/
def noKeysMsg : String := progFailFmt "Отсутствуют ожидаемые ключи в ответе API."

/-- The report bound by lines 185-189 when no extraction failure occurs:
the sentinel for an empty list, the parsed verdict sentence otherwise. -/
def reportOf (homeworks : List Val) : Option String :=
  match homeworks with
  | [] => some noStatusSentinel
  | hw :: _ => (parse_status hw).toOption

/-- Exactly the iterations on which an uncaught exception escapes the
loop body: a non-dict response (TypeError from `dict.keys`), or a failed
`parse_status` while the local `status_verdict` has never been bound
(NameError at line 204). -/
def crashes (s : LoopState) (fetch : FetchResult) : Bool :=
  match fetch with
  | .ok resp =>
    match check_response resp with
    | .error (.HomeworksIsNotList _) => false
    | .error (.NoKeysException _) => false
    | .error _ => true
    | .ok hs =>
      match hs with
      | [] => false
      | hw :: _ =>
        match parse_status hw with
        | .ok _ => false
        | .error _ => s.status_verdict.isNone
  | _ => false

/-- Exactly the non-crashing iterations that reach the next loop pass
without sleeping: a repeated identical `HomeworksIsNotList` or
`NoKeysException` error (the sleeps at lines 173 and 182 sit inside the
dedup `if`). -/
def skipsSleep (s : LoopState) (fetch : FetchResult) : Bool :=
  match fetch with
  | .ok resp =>
    match check_response resp with
    | .error (.HomeworksIsNotList m) => progFailFmt m == s.error_not_list_previous
    | .error (.NoKeysException m) => progFailFmt m == s.error_no_keys_previous
    | _ => false
  | _ => false

/-! Concrete API payloads used in counterexamples and witnesses. -/

/-- A well-formed homework record with the `approved` verdict. -/
def hwApproved : Val := .vDict [("homework_name", .vStr "hw1"), ("status", .vStr "approved")]

/-- A well-formed response carrying `hwApproved`. -/
def respApproved : Val :=
  .vDict [("homeworks", .vList [hwApproved]), ("current_date", .vInt 1000)]

/-- The verdict sentence the bot reports for `hwApproved`. -/
def approvedReport : String :=
  "Изменился статус проверки работы \"hw1\". Работа проверена: ревьюеру всё понравилось. Ура!"

/-- An empty-homeworks response with `current_date` 1000. -/
def respEmptyList1000 : Val :=
  .vDict [("homeworks", .vList []), ("current_date", .vInt 1000)]

/-- An empty-homeworks response with `current_date` 2000. -/
def respEmptyList2000 : Val :=
  .vDict [("homeworks", .vList []), ("current_date", .vInt 2000)]

/-- A response whose `homeworks` value is not a list. -/
def respNotList : Val := .vDict [("homeworks", .vInt 0), ("current_date", .vInt 0)]

/-- A mapping response with `homeworks` bound to a list but no
`current_date` key. -/
def respNoCurrentDate : Val := .vDict [("homeworks", .vList [])]

/-! ## Helper lemmas -/

/-- A successful `check_response` guarantees the `current_date` key. -/
lemma check_response_current_date {resp : Val} {hs : List Val}
    (h : check_response resp = .ok hs) : ∃ v, respGet resp "current_date" = some v := by
  cases resp with
  | vDict kvs =>
    simp only [respGet]
    cases h1 : dictGet kvs "homeworks" with
    | none => simp [check_response, h1] at h
    | some hw =>
      cases h2 : dictGet kvs "current_date" with
      | none => simp [check_response, h1, h2] at h
      | some v => exact ⟨v, rfl⟩
  | vList l => simp [check_response] at h
  | vStr s => simp [check_response] at h
  | vInt n => simp [check_response] at h

/-- A mapping without the `homeworks` key always fails validation with
`NoKeysException`, whatever the rest of the mapping holds. -/
lemma check_response_no_homeworks {kvs : List (String × Val)}
    (hmiss : dictGet kvs "homeworks" = none) :
    check_response (.vDict kvs) =
      .error (.NoKeysException "Отсутствуют ожидаемые ключи в ответе API.") := by
  cases h2 : dictGet kvs "current_date" with
  | none => simp [check_response, hmiss, h2]
  | some v => simp [check_response, hmiss, h2]

/-- `handleHTTPError` on a fresh error text: notify and update. -/
lemma handleHTTPError_new (bot : Bot) {s : LoopState} {e : String}
    (h : httpErrorFmt e ≠ s.HTTP_error_previous) :
    handleHTTPError bot s e =
      { state := { s with HTTP_error_previous := httpErrorFmt e },
        sends := [httpErrorFmt e],
        logs := LogEntry.mk .error (httpErrorFmt e) :: sendLogs bot (httpErrorFmt e),
        sleeps := 1, crash := none } := by
  simp only [handleHTTPError]
  rw [if_pos h]

/-- `handleHTTPError` on a repeated error text: log only, still sleep. -/
lemma handleHTTPError_rep (bot : Bot) {s : LoopState} {e : String}
    (h : httpErrorFmt e = s.HTTP_error_previous) :
    handleHTTPError bot s e =
      { state := s, sends := [], logs := [LogEntry.mk .error (httpErrorFmt e)],
        sleeps := 1, crash := none } := by
  simp only [handleHTTPError]
  rw [if_neg (not_not_intro h)]

/-- `handleOtherError` on a fresh error text: notify and update. -/
lemma handleOtherError_new (bot : Bot) {s : LoopState} {e : String}
    (h : endpointFmt e ≠ s.endpoint_message_previous) :
    handleOtherError bot s e =
      { state := { s with endpoint_message_previous := endpointFmt e },
        sends := [endpointFmt e],
        logs := LogEntry.mk .error (endpointFmt e) :: sendLogs bot (endpointFmt e),
        sleeps := 1, crash := none } := by
  simp only [handleOtherError]
  rw [if_pos h]

/-- `handleOtherError` on a repeated error text: log only, still sleep. -/
lemma handleOtherError_rep (bot : Bot) {s : LoopState} {e : String}
    (h : endpointFmt e = s.endpoint_message_previous) :
    handleOtherError bot s e =
      { state := s, sends := [], logs := [LogEntry.mk .error (endpointFmt e)],
        sleeps := 1, crash := none } := by
  simp only [handleOtherError]
  rw [if_neg (not_not_intro h)]

/-- `handleNotList` on a fresh error text: notify, update and sleep. -/
lemma handleNotList_new (bot : Bot) {s : LoopState} {msg : String}
    (h : progFailFmt msg ≠ s.error_not_list_previous) :
    handleNotList bot s msg =
      { state := { s with error_not_list_previous := progFailFmt msg },
        sends := [progFailFmt msg],
        logs := LogEntry.mk .error (progFailFmt msg) :: sendLogs bot (progFailFmt msg),
        sleeps := 1, crash := none } := by
  simp only [handleNotList]
  rw [if_pos h]

/-- `handleNotList` on a repeated error text: log only and skip the sleep. -/
lemma handleNotList_rep (bot : Bot) {s : LoopState} {msg : String}
    (h : progFailFmt msg = s.error_not_list_previous) :
    handleNotList bot s msg =
      { state := s, sends := [], logs := [LogEntry.mk .error (progFailFmt msg)],
        sleeps := 0, crash := none } := by
  simp only [handleNotList]
  rw [if_neg (not_not_intro h)]

/-- `handleNoKeys` on a fresh error text: notify, update and sleep. -/
lemma handleNoKeys_new (bot : Bot) {s : LoopState} {msg : String}
    (h : progFailFmt msg ≠ s.error_no_keys_previous) :
    handleNoKeys bot s msg =
      { state := { s with error_no_keys_previous := progFailFmt msg },
        sends := [progFailFmt msg],
        logs := LogEntry.mk .error (progFailFmt msg) :: sendLogs bot (progFailFmt msg),
        sleeps := 1, crash := none } := by
  simp only [handleNoKeys]
  rw [if_pos h]

/-- `handleNoKeys` on a repeated error text: log only and skip the sleep. -/
lemma handleNoKeys_rep (bot : Bot) {s : LoopState} {msg : String}
    (h : progFailFmt msg = s.error_no_keys_previous) :
    handleNoKeys bot s msg =
      { state := s, sends := [], logs := [LogEntry.mk .error (progFailFmt msg)],
        sleeps := 0, crash := none } := by
  simp only [handleNoKeys]
  rw [if_neg (not_not_intro h)]

/-- `afterCompare` with the `current_date` key present: both branches
sleep once more and rewrite the cursor; only a changed report notifies. -/
lemma afterCompare_eq (bot : Bot) (s1 : LoopState) (response : Val) (sv : String)
    (sends1 : List String) (logs1 : List LogEntry) (sleeps1 : Nat) {v : Val}
    (hcd : respGet response "current_date" = some v) :
    afterCompare bot s1 response sv sends1 logs1 sleeps1 =
      if sv ≠ s1.status_verdict_previous then
        { state := { s1 with
            status_verdict_previous := sv
            status_verdict := some sv
            current_timestamp := v },
          sends := sends1 ++ [sv], logs := logs1 ++ sendLogs bot sv,
          sleeps := sleeps1 + 1, crash := none }
      else
        { state := { s1 with status_verdict := some sv, current_timestamp := v },
          sends := sends1,
          logs := logs1 ++ [LogEntry.mk .debug "В ответе отсутствуют новые статусы."],
          sleeps := sleeps1 + 1, crash := none } := by
  unfold afterCompare sleepAndAdvance
  by_cases h : sv ≠ s1.status_verdict_previous
  · rw [if_pos h, if_pos h, hcd]
  · rw [if_neg h, if_neg h, hcd]

/-- `handleStale` when the stale local is bound. -/
lemma handleStale_some (bot : Bot) {s1 : LoopState} (response : Val)
    (sends1 : List String) (logs1 : List LogEntry) {sv : String}
    (h : s1.status_verdict = some sv) :
    handleStale bot s1 response sends1 logs1 =
      afterCompare bot s1 response sv sends1 logs1 1 := by
  unfold handleStale
  rw [h]

/-- `handleStale` when the local was never bound: NameError escapes. -/
lemma handleStale_none (bot : Bot) {s1 : LoopState} (response : Val)
    (sends1 : List String) (logs1 : List LogEntry)
    (h : s1.status_verdict = none) :
    handleStale bot s1 response sends1 logs1 =
      { state := s1, sends := sends1, logs := logs1, sleeps := 1,
        crash := some (.nameError "name status_verdict is not defined") } := by
  unfold handleStale
  rw [h]

/-- `handleSuccess` when lines 185-189 bind a report without failing. -/
lemma handleSuccess_report (bot : Bot) (s : LoopState) (response : Val)
    {homeworks : List Val} {sv : String} {v : Val}
    (hsv : reportOf homeworks = some sv)
    (hcd : respGet response "current_date" = some v) :
    handleSuccess bot s response homeworks =
      if sv ≠ s.status_verdict_previous then
        { state := { s with
            status_verdict_previous := sv
            status_verdict := some sv
            current_timestamp := v },
          sends := [sv], logs := sendLogs bot sv, sleeps := 1, crash := none }
      else
        { state := { s with status_verdict := some sv, current_timestamp := v },
          sends := [],
          logs := [LogEntry.mk .debug "В ответе отсутствуют новые статусы."],
          sleeps := 1, crash := none } := by
  cases homeworks with
  | nil =>
    simp only [reportOf, Option.some.injEq] at hsv
    subst hsv
    simp only [handleSuccess]
    rw [afterCompare_eq bot s response noStatusSentinel [] [] 0 hcd]
    split <;> simp_all
  | cons hw t =>
    cases hp : parse_status hw with
    | ok u =>
      simp only [reportOf, hp, Except.toOption, Option.some.injEq] at hsv
      subst hsv
      simp only [handleSuccess, hp]
      rw [afterCompare_eq bot s response u [] [] 0 hcd]
      split <;> simp_all
    | error err =>
      simp [reportOf, hp, Except.toOption] at hsv

/-- A failed `parse_status` on the first extraction ever: the handler runs
(one sleep at line 202), then line 204 raises `NameError`. -/
lemma handleSuccess_parse_fail_none (bot : Bot) {s : LoopState} (response : Val)
    {hw : Val} (t : List Val) {err : Exc}
    (hp : parse_status hw = .error err) (hv : s.status_verdict = none) :
    (handleSuccess bot s response (hw :: t)).crash =
      some (.nameError "name status_verdict is not defined") ∧
    (handleSuccess bot s response (hw :: t)).sleeps = 1 := by
  simp only [handleSuccess, hp, handleStale, hv]
  by_cases h : statusErrFmt (excStr err) ≠ s.error_status_previous
  · rw [if_pos h]
    refine ⟨?_, ?_⟩ <;> trivial
  · rw [if_neg h]
    refine ⟨?_, ?_⟩ <;> trivial

/-- A failed `parse_status` with a stale verdict from an earlier
iteration: no crash, two sleeps (lines 202 and 210), and the cursor is
still rewritten at line 211. -/
lemma handleSuccess_parse_fail_some (bot : Bot) {s : LoopState} (response : Val)
    {hw : Val} (t : List Val) {err : Exc} {sv : String} {v : Val}
    (hp : parse_status hw = .error err) (hv : s.status_verdict = some sv)
    (hcd : respGet response "current_date" = some v) :
    (handleSuccess bot s response (hw :: t)).crash = none ∧
    (handleSuccess bot s response (hw :: t)).sleeps = 2 ∧
    (handleSuccess bot s response (hw :: t)).state.current_timestamp = v := by
  simp only [handleSuccess, hp, handleStale, hv]
  by_cases h : statusErrFmt (excStr err) ≠ s.error_status_previous
  · rw [if_pos h, afterCompare_eq bot _ response sv _ _ 1 hcd]
    split <;> exact ⟨rfl, rfl, rfl⟩
  · rw [if_neg h, afterCompare_eq bot _ response sv _ _ 1 hcd]
    split <;> exact ⟨rfl, rfl, rfl⟩

/-- `afterCompare` decides and mutates identically whatever the bot does:
its state and send decisions never consult the delivery outcome. -/
lemma afterCompare_bot_indep (bot bot' : Bot) (s1 : LoopState) (response : Val)
    (sv : String) (sends1 : List String) (logs1 logs1' : List LogEntry) (sleeps1 : Nat) :
    (afterCompare bot s1 response sv sends1 logs1 sleeps1).state =
      (afterCompare bot' s1 response sv sends1 logs1' sleeps1).state ∧
    (afterCompare bot s1 response sv sends1 logs1 sleeps1).sends =
      (afterCompare bot' s1 response sv sends1 logs1' sleeps1).sends := by
  unfold afterCompare sleepAndAdvance
  by_cases h : sv ≠ s1.status_verdict_previous
  · rw [if_pos h, if_pos h]
    cases respGet response "current_date" <;> refine ⟨?_, ?_⟩ <;> trivial
  · rw [if_neg h, if_neg h]
    cases respGet response "current_date" <;> refine ⟨?_, ?_⟩ <;> trivial

/-! ## Claims -/

/-- Claim C8: a record with `homework_name` present and `status` bound to
one of the three recognized verdict strings parses to the formatted
sentence embedding the name and the fixed verdict text; a record with
`homework_name` present whose `status` is absent or not a recognized
verdict makes `parse_status` fail with a `KeyError` (the unknown-verdict
error) instead of passing the status through. -/
theorem C8_parse_status_verdicts :
    (∀ (kvs : List (String × Val)) (n : Val) (st verdict : String),
        dictGet kvs "homework_name" = some n →
        dictGet kvs "status" = some (.vStr st) →
        HOMEWORK_STATUSES.lookup st = some verdict →
        parse_status (.vDict kvs) =
          .ok ("Изменился статус проверки работы \"" ++ pyStr n ++ "\". " ++ verdict)) ∧
    (∀ (kvs : List (String × Val)) (n : Val),
        dictGet kvs "homework_name" = some n →
        (∀ sv, dictGet kvs "status" = some sv → statusVerdict sv = none) →
        ∃ k, parse_status (.vDict kvs) = .error (.keyError k)) := by
  constructor
  · intro kvs n st verdict hn hs hv
    simp [parse_status, hn, hs, statusVerdict, hv]
  · intro kvs n hn hs
    cases hst : dictGet kvs "status" with
    | none => exact ⟨"status", by simp [parse_status, hn, hst]⟩
    | some sv => exact ⟨pyStr sv, by simp [parse_status, hn, hst, hs sv hst]⟩

/-- Witness for C8 at the `approved` record and at a record with an
unrecognized status. -/
theorem C8_parse_status_verdicts_witness :
    parse_status (.vDict [("homework_name", .vStr "hw1"), ("status", .vStr "approved")]) =
      .ok ("Изменился статус проверки работы \"" ++ pyStr (.vStr "hw1") ++ "\". " ++
        "Работа проверена: ревьюеру всё понравилось. Ура!") ∧
    ∃ k, parse_status (.vDict [("homework_name", .vStr "hw1"), ("status", .vStr "deployed")]) =
      .error (.keyError k) := by
  constructor
  · exact C8_parse_status_verdicts.1 _ _ "approved" _ rfl rfl rfl
  · refine C8_parse_status_verdicts.2 _ (.vStr "hw1") rfl ?_
    intro sv h
    simp only [dictGet] at h
    simp at h
    subst h
    rfl

/-- Claim C9: whatever exception the Telegram collaborator raises while
sending, `send_message` catches it internally and returns normally — the
failure never propagates to the caller. -/
theorem C9_send_message_total : ∀ (bot : Bot) (message : String),
    ∃ logs, send_message bot message = .ok logs := by
  intro bot message
  simp only [send_message]
  cases hb : bot message with
  | error e => exact ⟨_, rfl⟩
  | ok sm =>
    dsimp only
    by_cases ht : sm.text = message
    · rw [if_pos ht]
      exact ⟨_, rfl⟩
    · rw [if_neg ht]
      exact ⟨_, rfl⟩

/-- Counterexample to claim C1: after a success report, an HTTP error, and
the same success again, the third iteration transitions from an error
report back to a success report (whose text differs from the error text),
yet the loop sends nothing, because each category keeps its own
previous-text variable. -/
theorem C1_counterexample :
    (iterate okBot (initState 0) (.ok respApproved)).sends = [approvedReport] ∧
    (iterate okBot (iterate okBot (initState 0) (.ok respApproved)).state
      (.httpError "E")).sends = [httpErrorFmt "E"] ∧
    approvedReport ≠ httpErrorFmt "E" ∧
    (iterate okBot (iterate okBot (iterate okBot (initState 0) (.ok respApproved)).state
      (.httpError "E")).state (.ok respApproved)).sends = [] := by
  refine ⟨?_, ?_, ?_, ?_⟩ <;> decide

/-- Counterexample to claim C2: on the very first response lacking the
`homeworks` key, the loop both sends a notification and mutates the
previous-no-keys state, contradicting "logged only, never surfaced". -/
theorem C2_counterexample :
    (initState 0).error_no_keys_previous = "" ∧
    (iterate okBot (initState 0) (.ok (.vDict []))).sends = [noKeysMsg] ∧
    (iterate okBot (initState 0) (.ok (.vDict []))).state.error_no_keys_previous = noKeysMsg ∧
    noKeysMsg ≠ "" := by
  refine ⟨?_, ?_, ?_, ?_⟩ <;> decide

/-- Counterexample to claim C3: a second consecutive identical
`HomeworksIsNotList` error re-enters the loop with no sleep at all
(the sleep at line 173 sits inside the dedup `if`), while not crashing. -/
theorem C3_counterexample :
    (iterate okBot (initState 0) (.ok respNotList)).sleeps = 1 ∧
    (iterate okBot (iterate okBot (initState 0) (.ok respNotList)).state
      (.ok respNotList)).sleeps = 0 ∧
    (iterate okBot (iterate okBot (initState 0) (.ok respNotList)).state
      (.ok respNotList)).crash = none := by
  refine ⟨?_, ?_, ?_⟩ <;> decide

/-- Counterexample to claim C4: an unchanged successful iteration (no
notification sent) still rewrites the cursor with the response's
`current_date`, because line 211 sits outside the comparison `if`. -/
theorem C4_counterexample :
    (iterate okBot (initState 0) (.ok respEmptyList1000)).state.current_timestamp =
      .vInt 1000 ∧
    (iterate okBot (iterate okBot (initState 0) (.ok respEmptyList1000)).state
      (.ok respEmptyList2000)).sends = [] ∧
    (iterate okBot (iterate okBot (initState 0) (.ok respEmptyList1000)).state
      (.ok respEmptyList2000)).state.current_timestamp = .vInt 2000 ∧
    Val.vInt 2000 ≠ Val.vInt 1000 := by
  refine ⟨rfl, by decide, rfl, by simp⟩

/-- Counterexample to claim C5: a response that is not a mapping raises a
`TypeError` inside `check_response` that no handler catches, so it
propagates out of the loop and the loop terminates. -/
theorem C5_counterexample :
    (iterate okBot (initState 0) (.ok (.vInt 0))).crash =
      some (.typeError "descriptor keys requires a dict object") ∧
    ((iterate okBot (initState 0) (.ok (.vInt 0))).crash).isSome = true := by
  refine ⟨?_, ?_⟩ <;> trivial

/-- Counterexample to claim C6: a mapping whose `homeworks` key is bound
to the empty list still fails validation — with `NoKeysException` — when
the `current_date` key is absent, because `check_response` requires both
keys. -/
theorem C6_counterexample :
    check_response respNoCurrentDate =
      .error (.NoKeysException "Отсутствуют ожидаемые ключи в ответе API.") ∧
    ∀ hs, check_response respNoCurrentDate ≠ .ok hs := by
  refine ⟨rfl, fun hs h => ?_⟩
  rw [show check_response respNoCurrentDate =
    .error (.NoKeysException "Отсутствуют ожидаемые ключи в ответе API.") from rfl] at h
  exact Except.noConfusion h

/-- Claim C1 (amended): error de-duplication is per category, each error
category holding its own previous-text variable. Within a category
(here HTTP-status errors), two consecutive identical error texts trigger
exactly one notification and a changed error text triggers exactly one
more; an error iteration leaves the success-report state untouched, so a
transition back to an already-stored text of another category (such as
error back to the unchanged success report) triggers none. -/
theorem C1_dedup_per_category (bot : Bot) (s : LoopState) (e e' : String)
    (h1 : httpErrorFmt e ≠ s.HTTP_error_previous)
    (h2 : httpErrorFmt e' ≠ httpErrorFmt e) :
    (iterate bot s (.httpError e)).sends = [httpErrorFmt e] ∧
    (iterate bot s (.httpError e)).state.status_verdict_previous =
      s.status_verdict_previous ∧
    (iterate bot (iterate bot s (.httpError e)).state (.httpError e)).sends = [] ∧
    (iterate bot (iterate bot (iterate bot s (.httpError e)).state (.httpError e)).state
      (.httpError e')).sends = [httpErrorFmt e'] := by
  have e1 := handleHTTPError_new bot h1
  have e2 := handleHTTPError_rep (s := { s with HTTP_error_previous := httpErrorFmt e })
    (e := e) bot rfl
  have e3 := handleHTTPError_new (s := { s with HTTP_error_previous := httpErrorFmt e })
    (e := e') bot h2
  simp only [iterate, e1, e2, e3]
  refine ⟨?_, ?_, ?_, ?_⟩ <;> trivial

/-- Witness for C1 (amended) at the initial state with error texts
"E" then "F". -/
theorem C1_dedup_per_category_witness :
    (iterate okBot (initState 0) (.httpError "E")).sends = [httpErrorFmt "E"] ∧
    (iterate okBot (initState 0) (.httpError "E")).state.status_verdict_previous =
      (initState 0).status_verdict_previous ∧
    (iterate okBot (iterate okBot (initState 0) (.httpError "E")).state
      (.httpError "E")).sends = [] ∧
    (iterate okBot (iterate okBot (iterate okBot (initState 0) (.httpError "E")).state
      (.httpError "E")).state (.httpError "F")).sends = [httpErrorFmt "F"] :=
  C1_dedup_per_category okBot (initState 0) "E" "F" (by decide) (by decide)

/-- Claim C2 (amended): a response lacking the `homeworks` key raises
`NoKeysException`, which is logged — but it is not silent: a notification
with the fixed formatted text is sent exactly when that text differs from
the stored previous no-keys error, which is then updated (so an identical
repeat is not re-notified and then leaves the state untouched). The
cursor and the success-report state are never mutated by this path. -/
theorem C2_missing_key_notifies (bot : Bot) (s : LoopState) (kvs : List (String × Val))
    (hmiss : dictGet kvs "homeworks" = none) :
    LogEntry.mk .error noKeysMsg ∈ (iterate bot s (.ok (.vDict kvs))).logs ∧
    (iterate bot s (.ok (.vDict kvs))).crash = none ∧
    (iterate bot s (.ok (.vDict kvs))).state.current_timestamp = s.current_timestamp ∧
    (iterate bot s (.ok (.vDict kvs))).state.status_verdict_previous =
      s.status_verdict_previous ∧
    (noKeysMsg ≠ s.error_no_keys_previous →
      (iterate bot s (.ok (.vDict kvs))).sends = [noKeysMsg] ∧
      (iterate bot s (.ok (.vDict kvs))).state.error_no_keys_previous = noKeysMsg) ∧
    (noKeysMsg = s.error_no_keys_previous →
      (iterate bot s (.ok (.vDict kvs))).sends = [] ∧
      (iterate bot s (.ok (.vDict kvs))).state = s) := by
  have hcheck := check_response_no_homeworks hmiss
  by_cases h : noKeysMsg ≠ s.error_no_keys_previous
  · have e1 := @handleNoKeys_new bot s "Отсутствуют ожидаемые ключи в ответе API." h
    simp only [iterate, hcheck, e1]
    refine ⟨List.mem_cons_self _ _, ?_, ?_, ?_, fun _ => ⟨?_, ?_⟩,
      fun hc => absurd hc h⟩ <;> trivial
  · push_neg at h
    have e1 := @handleNoKeys_rep bot s "Отсутствуют ожидаемые ключи в ответе API." h
    simp only [iterate, hcheck, e1]
    refine ⟨List.mem_cons_self _ _, ?_, ?_, ?_, fun hc => absurd h hc,
      fun _ => ⟨?_, ?_⟩⟩ <;> trivial

/-- Witness for C2 (amended) at the initial state and the empty mapping. -/
theorem C2_missing_key_notifies_witness :
    (iterate okBot (initState 0) (.ok (.vDict []))).sends = [noKeysMsg] ∧
    (iterate okBot (initState 0) (.ok (.vDict []))).state.error_no_keys_previous =
      noKeysMsg :=
  (C2_missing_key_notifies okBot (initState 0) [] rfl).2.2.2.2.1 (by decide)

/-- Claim C3 (amended): a non-crashing iteration re-enters the loop
without sleeping exactly when it handled a repeated identical
`HomeworksIsNotList` or `NoKeysException` error (the sleeps at lines 173
and 182 sit inside the dedup `if`); every other non-crashing path sleeps
at least once before the next iteration. -/
theorem C3_sleep_characterization (bot : Bot) (s : LoopState) (f : FetchResult)
    (hcrash : (iterate bot s f).crash = none) :
    ((iterate bot s f).sleeps = 0 ↔ skipsSleep s f = true) := by
  cases f with
  | httpError e =>
    by_cases h : httpErrorFmt e ≠ s.HTTP_error_previous
    · simp [iterate, handleHTTPError_new bot h, skipsSleep]
    · push_neg at h
      simp [iterate, handleHTTPError_rep bot h, skipsSleep]
  | otherError e =>
    by_cases h : endpointFmt e ≠ s.endpoint_message_previous
    · simp [iterate, handleOtherError_new bot h, skipsSleep]
    · push_neg at h
      simp [iterate, handleOtherError_rep bot h, skipsSleep]
  | ok resp =>
    cases hc : check_response resp with
    | error err =>
      cases err with
      | HomeworksIsNotList m =>
        by_cases h : progFailFmt m ≠ s.error_not_list_previous
        · simp [iterate, hc, handleNotList_new bot h, skipsSleep, h]
        · push_neg at h
          simp [iterate, hc, handleNotList_rep bot h, skipsSleep, h]
      | NoKeysException m =>
        by_cases h : progFailFmt m ≠ s.error_no_keys_previous
        · simp [iterate, hc, handleNoKeys_new bot h, skipsSleep, h]
        · push_neg at h
          simp [iterate, hc, handleNoKeys_rep bot h, skipsSleep, h]
      | HTTPstatusNot200 m => simp [iterate, hc] at hcrash
      | NoTokenException m => simp [iterate, hc] at hcrash
      | typeError m => simp [iterate, hc] at hcrash
      | keyError m => simp [iterate, hc] at hcrash
      | nameError m => simp [iterate, hc] at hcrash
      | otherExc m => simp [iterate, hc] at hcrash
    | ok hs =>
      obtain ⟨v, hcd⟩ := check_response_current_date hc
      cases hs with
      | nil =>
        have e1 := @handleSuccess_report bot s resp [] noStatusSentinel v rfl hcd
        simp only [iterate, hc, e1, skipsSleep]
        split <;> simp
      | cons hw t =>
        cases hp : parse_status hw with
        | ok u =>
          have e1 := @handleSuccess_report bot s resp (hw :: t) u v (by simp [reportOf, hp, Except.toOption]) hcd
          simp only [iterate, hc, e1, skipsSleep]
          split <;> simp
        | error err =>
          cases hv : s.status_verdict with
          | none =>
            have e1 := handleSuccess_parse_fail_none bot resp t hp hv
            simp only [iterate, hc] at hcrash
            rw [e1.1] at hcrash
            simp at hcrash
          | some sv =>
            have e1 := handleSuccess_parse_fail_some bot resp t hp hv hcd
            simp only [iterate, hc, skipsSleep]
            rw [e1.2.1]
            simp

/-- Witness for C3 (amended) at the first `HomeworksIsNotList` iteration,
which does sleep and is not a skip case. -/
theorem C3_sleep_characterization_witness :
    (iterate okBot (initState 0) (.ok respNotList)).sleeps = 0 ↔
      skipsSleep (initState 0) (.ok respNotList) = true :=
  C3_sleep_characterization okBot (initState 0) (.ok respNotList) rfl

/-- Claim C4 (amended): the cursor is rewritten with the response's
`current_date` on every non-crashing iteration that passes validation —
changed or unchanged, and even when extraction failed with a stale
verdict — because line 211 sits outside the comparison `if`; error-fetch
iterations leave the cursor untouched. -/
theorem C4_cursor_advance_characterization :
    (∀ (bot : Bot) (s : LoopState) (resp : Val) (hs : List Val) (v : Val),
        check_response resp = .ok hs →
        respGet resp "current_date" = some v →
        (iterate bot s (.ok resp)).crash = none →
        (iterate bot s (.ok resp)).state.current_timestamp = v) ∧
    (∀ (bot : Bot) (s : LoopState) (e : String),
        (iterate bot s (.httpError e)).state.current_timestamp = s.current_timestamp ∧
        (iterate bot s (.otherError e)).state.current_timestamp = s.current_timestamp) := by
  constructor
  · intro bot s resp hs v hok hcd hcrash
    cases hs with
    | nil =>
      have e1 := @handleSuccess_report bot s resp [] noStatusSentinel v rfl hcd
      simp only [iterate, hok, e1]
      split <;> rfl
    | cons hw t =>
      cases hp : parse_status hw with
      | ok u =>
        have e1 := @handleSuccess_report bot s resp (hw :: t) u v (by simp [reportOf, hp, Except.toOption]) hcd
        simp only [iterate, hok, e1]
        split <;> rfl
      | error err =>
        cases hv : s.status_verdict with
        | none =>
          have e1 := handleSuccess_parse_fail_none bot resp t hp hv
          simp only [iterate, hok] at hcrash
          rw [e1.1] at hcrash
          simp at hcrash
        | some sv =>
          have e1 := handleSuccess_parse_fail_some bot resp t hp hv hcd
          simp only [iterate, hok]
          exact e1.2.2
  · intro bot s e
    constructor
    · by_cases h : httpErrorFmt e ≠ s.HTTP_error_previous
      · simp [iterate, handleHTTPError_new bot h]
      · push_neg at h
        simp [iterate, handleHTTPError_rep bot h]
    · by_cases h : endpointFmt e ≠ s.endpoint_message_previous
      · simp [iterate, handleOtherError_new bot h]
      · push_neg at h
        simp [iterate, handleOtherError_rep bot h]

/-- Witness for C4 (amended): an unchanged-report empty-list response
still moves the cursor to 1000, and an HTTP-error iteration keeps it. -/
theorem C4_cursor_advance_characterization_witness :
    (iterate okBot (initState 0) (.ok respEmptyList1000)).state.current_timestamp =
      Val.vInt 1000 ∧
    (iterate okBot (initState 0) (.httpError "E")).state.current_timestamp =
      (initState 0).current_timestamp :=
  ⟨C4_cursor_advance_characterization.1 okBot (initState 0) respEmptyList1000 []
      (.vInt 1000) rfl rfl rfl,
    (C4_cursor_advance_characterization.2 okBot (initState 0) "E").1⟩

/-- Claim C5 (amended): an iteration lets an exception escape the loop —
terminating it — in exactly two situations: a response that is not a
mapping (uncaught TypeError from `dict.keys`), and a failed extraction
while the loop-body local `status_verdict` has never been bound (uncaught
NameError at line 204). All other recoverable errors are caught at the
iteration boundary. -/
theorem C5_crash_characterization : ∀ (bot : Bot) (s : LoopState) (f : FetchResult),
    (iterate bot s f).crash = none ↔ crashes s f = false := by
  intro bot s f
  cases f with
  | httpError e =>
    by_cases h : httpErrorFmt e ≠ s.HTTP_error_previous
    · simp [iterate, handleHTTPError_new bot h, crashes]
    · push_neg at h
      simp [iterate, handleHTTPError_rep bot h, crashes]
  | otherError e =>
    by_cases h : endpointFmt e ≠ s.endpoint_message_previous
    · simp [iterate, handleOtherError_new bot h, crashes]
    · push_neg at h
      simp [iterate, handleOtherError_rep bot h, crashes]
  | ok resp =>
    cases hc : check_response resp with
    | error err =>
      cases err with
      | HomeworksIsNotList m =>
        by_cases h : progFailFmt m ≠ s.error_not_list_previous
        · simp [iterate, hc, handleNotList_new bot h, crashes]
        · push_neg at h
          simp [iterate, hc, handleNotList_rep bot h, crashes]
      | NoKeysException m =>
        by_cases h : progFailFmt m ≠ s.error_no_keys_previous
        · simp [iterate, hc, handleNoKeys_new bot h, crashes]
        · push_neg at h
          simp [iterate, hc, handleNoKeys_rep bot h, crashes]
      | HTTPstatusNot200 m => simp [iterate, hc, crashes]
      | NoTokenException m => simp [iterate, hc, crashes]
      | typeError m => simp [iterate, hc, crashes]
      | keyError m => simp [iterate, hc, crashes]
      | nameError m => simp [iterate, hc, crashes]
      | otherExc m => simp [iterate, hc, crashes]
    | ok hs =>
      obtain ⟨v, hcd⟩ := check_response_current_date hc
      cases hs with
      | nil =>
        have e1 := @handleSuccess_report bot s resp [] noStatusSentinel v rfl hcd
        simp only [iterate, hc, e1, crashes]
        split <;> simp
      | cons hw t =>
        cases hp : parse_status hw with
        | ok u =>
          have e1 := @handleSuccess_report bot s resp (hw :: t) u v (by simp [reportOf, hp, Except.toOption]) hcd
          simp only [iterate, hc, e1, crashes, hp]
          split <;> simp
        | error err =>
          cases hv : s.status_verdict with
          | none =>
            have e1 := handleSuccess_parse_fail_none bot resp t hp hv
            simp only [iterate, hc, crashes, hp, hv]
            rw [e1.1]
            simp
          | some sv =>
            have e1 := handleSuccess_parse_fail_some bot resp t hp hv hcd
            simp only [iterate, hc, crashes, hp, hv]
            rw [e1.1]
            simp

/-- Claim C6 (amended): on a mapping response, validation succeeds and
returns the `homeworks` list unchanged exactly when BOTH the `homeworks`
key (bound to a list) and the `current_date` key are present; it fails
with the `NoKeysException` error whenever either key is missing — not
only when `homeworks` is missing. -/
theorem C6_check_response_both_keys :
    (∀ (kvs : List (String × Val)) (hs : List Val),
        dictGet kvs "homeworks" = some (.vList hs) →
        (dictGet kvs "current_date").isSome = true →
        check_response (.vDict kvs) = .ok hs) ∧
    (∀ (kvs : List (String × Val)) (hs : List Val),
        check_response (.vDict kvs) = .ok hs →
        dictGet kvs "homeworks" = some (.vList hs) ∧
        (dictGet kvs "current_date").isSome = true) ∧
    (∀ kvs : List (String × Val),
        dictGet kvs "homeworks" = none ∨ dictGet kvs "current_date" = none →
        check_response (.vDict kvs) =
          .error (.NoKeysException "Отсутствуют ожидаемые ключи в ответе API.")) := by
  refine ⟨?_, ?_, ?_⟩
  · intro kvs hs h1 h2
    obtain ⟨v, hv⟩ := Option.isSome_iff_exists.mp h2
    simp [check_response, h1, hv]
  · intro kvs hs h
    cases h1 : dictGet kvs "homeworks" with
    | none => simp [check_response, h1] at h
    | some hw =>
      cases h2 : dictGet kvs "current_date" with
      | none => simp [check_response, h1, h2] at h
      | some v =>
        cases hw with
        | vDict d => simp [check_response, h1, h2] at h
        | vList l =>
          simp only [check_response, h1, h2, Except.ok.injEq] at h
          subst h
          refine ⟨?_, ?_⟩ <;> trivial
        | vStr str => simp [check_response, h1, h2] at h
        | vInt n => simp [check_response, h1, h2] at h
  · intro kvs h
    cases h1 : dictGet kvs "homeworks" with
    | none => exact check_response_no_homeworks h1
    | some hw =>
      rcases h with h | h
      · rw [h1] at h
        exact Option.noConfusion h
      · simp [check_response, h1, h]

/-- Witness for C6 (amended): both keys present with an empty list
succeeds; `homeworks` present but `current_date` absent fails. -/
theorem C6_check_response_both_keys_witness :
    check_response (.vDict [("homeworks", .vList []), ("current_date", .vInt 1000)]) =
      .ok [] ∧
    check_response (.vDict [("homeworks", .vList [])]) =
      .error (.NoKeysException "Отсутствуют ожидаемые ключи в ответе API.") :=
  ⟨C6_check_response_both_keys.1 [("homeworks", .vList []), ("current_date", .vInt 1000)]
      [] rfl rfl,
    C6_check_response_both_keys.2.2 [("homeworks", .vList [])] (Or.inr rfl)⟩

/-- Claim C7: two consecutive iterations over an unchanged response that
produces a report (a parsed verdict, or the fixed sentinel for an empty
homeworks list) send at most one notification in total — the second
iteration never re-sends; in particular the empty-list sentinel is sent
at most once and never re-sent on an identical empty-list response. -/
theorem C7_unchanged_response_idempotent (bot : Bot) (s : LoopState) (resp : Val)
    (hs : List Val) (sv : String)
    (hok : check_response resp = .ok hs)
    (hsv : reportOf hs = some sv) :
    ((iterate bot s (.ok resp)).sends = [sv] ∨ (iterate bot s (.ok resp)).sends = []) ∧
    (iterate bot (iterate bot s (.ok resp)).state (.ok resp)).sends = [] ∧
    (iterate bot s (.ok resp)).sends.length +
      (iterate bot (iterate bot s (.ok resp)).state (.ok resp)).sends.length ≤ 1 := by
  obtain ⟨v, hcd⟩ := check_response_current_date hok
  have e1 := handleSuccess_report bot s resp hsv hcd
  by_cases h : sv ≠ s.status_verdict_previous
  · rw [if_pos h] at e1
    have e2 := handleSuccess_report
      (s := { s with
        status_verdict_previous := sv
        status_verdict := some sv
        current_timestamp := v }) bot resp hsv hcd
    rw [if_neg (not_not_intro rfl)] at e2
    simp only [iterate, hok, e1, e2]
    refine ⟨Or.inl ?_, ?_, ?_⟩ <;> trivial
  · push_neg at h
    rw [if_neg (not_not_intro h)] at e1
    have e2 := handleSuccess_report
      (s := { s with status_verdict := some sv, current_timestamp := v }) bot resp hsv hcd
    rw [if_neg (not_not_intro h)] at e2
    simp only [iterate, hok, e1, e2]
    refine ⟨Or.inr ?_, ?_, ?_⟩ <;> trivial

/-- Witness for C7 at the empty-list response: the sentinel is sent on
the first iteration and not re-sent on the identical second one. -/
theorem C7_unchanged_response_idempotent_witness :
    ((iterate okBot (initState 0) (.ok respEmptyList1000)).sends = [noStatusSentinel] ∨
      (iterate okBot (initState 0) (.ok respEmptyList1000)).sends = []) ∧
    (iterate okBot (iterate okBot (initState 0) (.ok respEmptyList1000)).state
      (.ok respEmptyList1000)).sends = [] ∧
    (iterate okBot (initState 0) (.ok respEmptyList1000)).sends.length +
      (iterate okBot (iterate okBot (initState 0) (.ok respEmptyList1000)).state
        (.ok respEmptyList1000)).sends.length ≤ 1 :=
  C7_unchanged_response_idempotent okBot (initState 0) respEmptyList1000 []
    noStatusSentinel rfl rfl

/-- Claim C10: the loop's state evolution and its decisions to notify
never consult the delivery outcome — two bots with different delivery
behavior yield identical successor states and identical send lists — and
once a notification is decided, the category's previous-text variable is
updated, so a later identical text (for instance after a failed delivery)
is never re-sent. -/
theorem C10_previous_updated_regardless_of_delivery :
    (∀ (bot bot' : Bot) (s : LoopState) (f : FetchResult),
        (iterate bot s f).state = (iterate bot' s f).state ∧
        (iterate bot s f).sends = (iterate bot' s f).sends) ∧
    (∀ (bot : Bot) (s : LoopState) (e : String),
        httpErrorFmt e ≠ s.HTTP_error_previous →
        (iterate bot s (.httpError e)).sends = [httpErrorFmt e] ∧
        (iterate bot s (.httpError e)).state.HTTP_error_previous = httpErrorFmt e ∧
        (iterate bot (iterate bot s (.httpError e)).state (.httpError e)).sends = []) := by
  constructor
  · intro bot bot' s f
    cases f with
    | httpError e =>
      by_cases h : httpErrorFmt e ≠ s.HTTP_error_previous
      · rw [show iterate bot s (.httpError e) = handleHTTPError bot s e from rfl,
          show iterate bot' s (.httpError e) = handleHTTPError bot' s e from rfl,
          handleHTTPError_new bot h, handleHTTPError_new bot' h]
        refine ⟨?_, ?_⟩ <;> trivial
      · push_neg at h
        rw [show iterate bot s (.httpError e) = handleHTTPError bot s e from rfl,
          show iterate bot' s (.httpError e) = handleHTTPError bot' s e from rfl,
          handleHTTPError_rep bot h, handleHTTPError_rep bot' h]
        refine ⟨?_, ?_⟩ <;> trivial
    | otherError e =>
      by_cases h : endpointFmt e ≠ s.endpoint_message_previous
      · rw [show iterate bot s (.otherError e) = handleOtherError bot s e from rfl,
          show iterate bot' s (.otherError e) = handleOtherError bot' s e from rfl,
          handleOtherError_new bot h, handleOtherError_new bot' h]
        refine ⟨?_, ?_⟩ <;> trivial
      · push_neg at h
        rw [show iterate bot s (.otherError e) = handleOtherError bot s e from rfl,
          show iterate bot' s (.otherError e) = handleOtherError bot' s e from rfl,
          handleOtherError_rep bot h, handleOtherError_rep bot' h]
        refine ⟨?_, ?_⟩ <;> trivial
    | ok resp =>
      cases hc : check_response resp with
      | error err =>
        cases err with
        | HomeworksIsNotList m =>
          by_cases h : progFailFmt m ≠ s.error_not_list_previous
          · simp only [iterate, hc, handleNotList_new bot h, handleNotList_new bot' h]
            refine ⟨?_, ?_⟩ <;> trivial
          · push_neg at h
            simp only [iterate, hc, handleNotList_rep bot h, handleNotList_rep bot' h]
            refine ⟨?_, ?_⟩ <;> trivial
        | NoKeysException m =>
          by_cases h : progFailFmt m ≠ s.error_no_keys_previous
          · simp only [iterate, hc, handleNoKeys_new bot h, handleNoKeys_new bot' h]
            refine ⟨?_, ?_⟩ <;> trivial
          · push_neg at h
            simp only [iterate, hc, handleNoKeys_rep bot h, handleNoKeys_rep bot' h]
            refine ⟨?_, ?_⟩ <;> trivial
        | HTTPstatusNot200 m => simp only [iterate, hc]; refine ⟨?_, ?_⟩ <;> trivial
        | NoTokenException m => simp only [iterate, hc]; refine ⟨?_, ?_⟩ <;> trivial
        | typeError m => simp only [iterate, hc]; refine ⟨?_, ?_⟩ <;> trivial
        | keyError m => simp only [iterate, hc]; refine ⟨?_, ?_⟩ <;> trivial
        | nameError m => simp only [iterate, hc]; refine ⟨?_, ?_⟩ <;> trivial
        | otherExc m => simp only [iterate, hc]; refine ⟨?_, ?_⟩ <;> trivial
      | ok hs =>
        cases hs with
        | nil =>
          simp only [iterate, hc, handleSuccess]
          exact afterCompare_bot_indep bot bot' s resp noStatusSentinel [] [] [] 0
        | cons hw t =>
          cases hp : parse_status hw with
          | ok u =>
            simp only [iterate, hc, handleSuccess, hp]
            exact afterCompare_bot_indep bot bot' s resp u [] [] [] 0
          | error err =>
            simp only [iterate, hc, handleSuccess, hp, handleStale]
            by_cases h : statusErrFmt (excStr err) ≠ s.error_status_previous
            · rw [if_pos h, if_pos h]
              cases hv : s.status_verdict with
              | none => refine ⟨?_, ?_⟩ <;> trivial
              | some sv =>
                exact afterCompare_bot_indep bot bot'
                  { s with error_status_previous := statusErrFmt (excStr err) } resp sv
                  [statusErrFmt (excStr err)] _ _ 1
            · rw [if_neg h, if_neg h]
              cases hv : s.status_verdict with
              | none => refine ⟨?_, ?_⟩ <;> trivial
              | some sv =>
                exact afterCompare_bot_indep bot bot' s resp sv [] _ _ 1
  · intro bot s e h
    have e1 := handleHTTPError_new bot h
    have e2 := handleHTTPError_rep (s := { s with HTTP_error_previous := httpErrorFmt e })
      (e := e) bot rfl
    simp only [iterate, e1, e2]
    refine ⟨?_, ?_, ?_⟩ <;> trivial

/-- Witness for C10: with a bot whose delivery always fails, the previous
HTTP-error text is still recorded and the identical error is not re-sent;
state and sends match those of an always-succeeding bot. -/
theorem C10_previous_updated_regardless_of_delivery_witness :
    ((iterate failBot (initState 0) (.httpError "E")).state =
        (iterate okBot (initState 0) (.httpError "E")).state ∧
      (iterate failBot (initState 0) (.httpError "E")).sends =
        (iterate okBot (initState 0) (.httpError "E")).sends) ∧
    ((iterate failBot (initState 0) (.httpError "E")).sends = [httpErrorFmt "E"] ∧
      (iterate failBot (initState 0) (.httpError "E")).state.HTTP_error_previous =
        httpErrorFmt "E" ∧
      (iterate failBot (iterate failBot (initState 0) (.httpError "E")).state
        (.httpError "E")).sends = []) :=
  ⟨C10_previous_updated_regardless_of_delivery.1 failBot okBot (initState 0)
      (.httpError "E"),
    C10_previous_updated_regardless_of_delivery.2 failBot (initState 0) "E" (by decide)⟩

end HomeworkBot
